import Mathlib

/-
  Verification of the Wan 2.2 Animate orchestration handler
  (`POST /generate-animation` in `src/server.js`).

  The handler is embedded as a deterministic function from an
  environment (the record-store contents, the success/failure of each
  record-store update, the submission response, the per-attempt poll
  responses, and a time oracle) to the trace of external effects the
  run performs together with the run's thrown error, if any.
-/

namespace WanAnimate

/-- An Airtable attachment object; the handler only reads `?.url`. -/
structure Attachment where
  url : Option String
deriving DecidableEq

/-- The Airtable record fields read by the handler
(`record.fields.input_image` and so on); `none` models an absent field. -/
structure Fields where
  input_image : Option (List Attachment)
  input_video : Option (List Attachment)
  prompt : Option String
  mode : Option String
  resolution : Option String
  seed : Option Int
deriving DecidableEq

/-- The parsed submission response body field `data` (`{id}`);
`id := none` models a body whose `data` object lacks an `id` key. -/
structure SubmitData where
  id : Option String
deriving DecidableEq

/-- The submission HTTP outcome: `ok` is `response.ok`, the rest is the
parsed JSON body (`{code, message, data}`). -/
structure SubmitResp where
  ok : Bool
  code : Option Int
  message : Option String
  data : Option SubmitData
deriving DecidableEq

/-- The parsed poll response body field `data`
(`{status, outputs, error}`). -/
structure PollData where
  status : Option String
  outputs : Option (List String)
  error : Option String
deriving DecidableEq

/-- The parsed poll response body; `data := none` models a body with no
`data` object (the code reads it with `result.data?.status`). -/
structure PollResp where
  data : Option PollData
deriving DecidableEq

/-- The JSON payload submitted to the generation API; `prompt := none`
means the `prompt` key is absent from the payload. -/
structure Payload where
  image : String
  video : String
  mode : String
  resolution : String
  seed : Int
  prompt : Option String
deriving DecidableEq

/-- A partial field map passed to `base(table).update(recordId, ...)`;
`none` means the key is not written (an `undefined` value is dropped by
JSON serialization, so it has the same merge behaviour as an absent key). -/
structure UpdateFields where
  status : Option String := none
  error_log : Option String := none
  job_id : Option String := none
  output_video : Option String := none
deriving DecidableEq

/-- One external effect of a run, in program order. -/
inductive Event where
  | find (ok : Bool)
  | update (u : UpdateFields) (ok : Bool)
  | submit (p : Payload)
  | sleep (ms : Nat)
  | poll (attempt : Nat) (jobId : Option String)
  | download (url : String)
deriving DecidableEq

/-- The environment a run executes against: everything the outside
world decides. `updateOk k` tells whether the k-th update call of the
run succeeds (counting from 0 in program order); `pollResp n` is the
response to poll attempt `n` (1-based); `elapsedAt n` is the elapsed
whole-second reading taken at attempt `n`; the `iso*` fields are the
`toISOString()` readings at the four points where the code takes them. -/
structure Env where
  record : Option Fields
  findErr : String
  updateOk : Nat → Bool
  updateErr : Nat → String
  submitResp : SubmitResp
  pollResp : Nat → PollResp
  elapsedAt : Nat → Nat
  isoStart : String
  isoSubmitted : String
  isoCompleted : String
  isoFailed : String

/-- JS `a || d` on a possibly-absent string: `undefined` and `""` are
falsy. -/
def jsOr : Option String → String → String
  | some s, d => if s = "" then d else s
  | none, d => d

/-- JS `a || d` on a possibly-absent integer: `undefined` and `0` are
falsy. -/
def jsOrInt : Option Int → Int → Int
  | some s, d => if s = 0 then d else s
  | none, d => d

/-- JS truthiness of a possibly-absent string, as used by
`if (!inputImage)`: absent and `""` are falsy. -/
def truthy : Option String → Bool
  | none => false
  | some s => if s = "" then false else true

/-- `field?.[0]?.url`: the first attachment url, when every step is
present. -/
def firstUrl : Option (List Attachment) → Option String
  | none => none
  | some l =>
    match l.head? with
    | none => none
    | some a => a.url

/-- JS template-literal interpolation of a possibly-undefined string
(`undefined` prints as "undefined"). -/
def optStr : Option String → String
  | none => "undefined"
  | some s => s

/-- `result.data?.status`. -/
def statusOf (r : PollResp) : Option String :=
  match r.data with
  | none => none
  | some d => d.status

/-- `result.data.outputs?.[0]` (evaluated only when `data` is present). -/
def firstOutput (r : PollResp) : Option String :=
  match r.data with
  | none => none
  | some d =>
    match d.outputs with
    | none => none
    | some l => l.head?

/-- `result.data?.error`. -/
def errorOf (r : PollResp) : Option String :=
  match r.data with
  | none => none
  | some d => d.error

/-- Message of `throw new Error('Timeout: ...')` after the loop. -/
def timeoutMsg : String := "Timeout: Animation generation took too long"

/-- Message of `throw new Error('No video URL in completed response')`. -/
def noVideoMsg : String := "No video URL in completed response"

/-- The TypeError raised by `submitResult.data.id` when `data` is
absent (engine text abridged). -/
def dataUndefinedMsg : String :=
  "TypeError: Cannot read properties of undefined (reading id)"

/-- The pre-submit progress write (status `Generating...`). -/
def preSubmitUpdate (env : Env) (mode res : String) : UpdateFields :=
  { status := some "Generating...",
    error_log := some ("Started at " ++ env.isoStart ++ "\nMode: " ++ mode
      ++ "\nResolution: " ++ res) }

/-- The job-id persist write (status `Processing...`). -/
def persistUpdate (env : Env) (jid : Option String) : UpdateFields :=
  { job_id := jid,
    status := some "Processing...",
    error_log := some ("Job ID: " ++ optStr jid ++ "\nSubmitted at "
      ++ env.isoSubmitted) }

/-- The in-loop progress write at attempt `n`. -/
def progressUpdate (env : Env) (jid : Option String) (n : Nat) : UpdateFields :=
  { status := some ("Generating... " ++ toString (env.elapsedAt n) ++ "s elapsed"),
    error_log := some ("Job ID: " ++ optStr jid ++ "\nProcessing... (attempt "
      ++ toString n ++ "/120)") }

/-- The success write at attempt `n` with output url `u`; in the code
`output_video` is written as the singleton attachment array
`[{url: u}]`, modelled here by its url. -/
def successUpdate (env : Env) (n : Nat) (u : String) : UpdateFields :=
  { output_video := some u,
    status := some "Completed",
    error_log := some ("Completed at " ++ env.isoCompleted ++ "\nTotal time: "
      ++ toString (env.elapsedAt n) ++ "s\nVideo: " ++ u) }

/-- The top-level catch write (status `Failed`). -/
def failedUpdate (env : Env) (msg : String) : UpdateFields :=
  { status := some "Failed",
    error_log := some ("Error: " ++ msg ++ "\nTime: " ++ env.isoFailed) }

/-- The `while (attempt < maxAttempts && !completed)` poll loop.
`k` is the index of the next update call, `a` the number of attempts
already made, and the fuel is `120 - a`. Returns the events of the
loop, the thrown error (if any; `some timeoutMsg` for the post-loop
`if (!completed) throw`), and the next update index. -/
def pollLoop (env : Env) (jid : Option String) :
    Nat → Nat → Nat → List Event × Option String × Nat
  | k, _, 0 => ([], some timeoutMsg, k)
  | k, a, fuel + 1 =>
    let n := a + 1
    if env.updateOk k = false then
      ([Event.sleep 5000, Event.update (progressUpdate env jid n) false],
        some (env.updateErr k), k + 1)
    else
      let pre := [Event.sleep 5000, Event.update (progressUpdate env jid n) true,
        Event.poll n jid]
      let r := env.pollResp n
      if statusOf r = some "completed" then
        match firstOutput r with
        | none => (pre, some noVideoMsg, k + 1)
        | some u =>
          if u = "" then
            (pre, some noVideoMsg, k + 1)
          else
            let ok2 := env.updateOk (k + 1)
            (pre ++ [Event.download u, Event.update (successUpdate env n u) ok2],
              if ok2 then none else some (env.updateErr (k + 1)), k + 2)
      else if statusOf r = some "failed" then
        (pre, some ("Generation failed: " ++ jsOr (errorOf r) "Unknown error"), k + 1)
      else
        let rest := pollLoop env jid (k + 1) n fuel
        (pre ++ rest.1, rest.2.1, rest.2.2)

/-- The submission payload built from the record fields: `image`,
`video`, `mode`, `resolution`, `seed` always, `prompt` only when the
record's prompt is truthy. -/
def mkPayload (f : Fields) (img vid : String) : Payload :=
  { image := img, video := vid,
    mode := jsOr f.mode "animate",
    resolution := jsOr f.resolution "480p",
    seed := jsOrInt f.seed (-1),
    prompt := if jsOr f.prompt "" = "" then none else some (jsOr f.prompt "") }

/-- The body of the handler's `try` block: fetch, validate, pre-submit
write, submit, persist job id, poll. Returns the events, the thrown
error (if any), and the number of update calls made. -/
def runBody (env : Env) : List Event × Option String × Nat :=
  match env.record with
  | none => ([Event.find false], some env.findErr, 0)
  | some f =>
    let inputImage := firstUrl f.input_image
    let inputVideo := firstUrl f.input_video
    let mode := jsOr f.mode "animate"
    let res := jsOr f.resolution "480p"
    if truthy inputImage = false then
      ([Event.find true], some "No input image found", 0)
    else if truthy inputVideo = false then
      ([Event.find true], some "No input video found", 0)
    else
      let ok0 := env.updateOk 0
      let e1 := Event.update (preSubmitUpdate env mode res) ok0
      if ok0 = false then
        ([Event.find true, e1], some (env.updateErr 0), 1)
      else
        -- on this branch both options are truthy, so `getD` only extracts
        let p : Payload := mkPayload f (inputImage.getD "") (inputVideo.getD "")
        let evs := [Event.find true, e1, Event.submit p]
        if env.submitResp.ok = false ∨ env.submitResp.code ≠ some 200 then
          (evs, some ("API error: " ++ jsOr env.submitResp.message "Unknown error"), 1)
        else
          match env.submitResp.data with
          | none => (evs, some dataUndefinedMsg, 1)
          | some d =>
            let jid := d.id
            let ok1 := env.updateOk 1
            let e2 := Event.update (persistUpdate env jid) ok1
            if ok1 = false then
              (evs ++ [e2], some (env.updateErr 1), 2)
            else
              let rest := pollLoop env jid 2 0 120
              (evs ++ [e2] ++ rest.1, rest.2.1, rest.2.2)

/-- The whole run: the `try` body followed by the top-level `catch`,
which converts a thrown error into a best-effort `Failed` write (its
own failure is swallowed by the inner try/catch). -/
def run (env : Env) : List Event × Option String :=
  let body := runBody env
  match body.2.1 with
  | none => (body.1, none)
  | some msg =>
    (body.1 ++ [Event.update (failedUpdate env msg) (env.updateOk body.2.2)],
      some msg)

/-- The record-store fields touched by this handler. -/
structure StoreState where
  status : Option String := none
  error_log : Option String := none
  job_id : Option String := none
  output_video : Option String := none
deriving DecidableEq

/-- Airtable `update` merge semantics: keys present in the map
overwrite, absent keys are untouched; failed calls change nothing. -/
def applyUpdate (s : StoreState) (u : UpdateFields) : StoreState :=
  { status := match u.status with | some v => some v | none => s.status,
    error_log := match u.error_log with | some v => some v | none => s.error_log,
    job_id := match u.job_id with | some v => some v | none => s.job_id,
    output_video :=
      match u.output_video with | some v => some v | none => s.output_video }

/-- Fold the successful updates of a trace over a store state. -/
def applyEvents (s : StoreState) : List Event → StoreState
  | [] => s
  | Event.update u true :: r => applyEvents (applyUpdate s u) r
  | _ :: r => applyEvents s r

/-- The record's final state after a run (starting from a blank record). -/
def finalState (env : Env) : StoreState :=
  applyEvents {} (run env).1

/-- Number of poll (status-check) requests in a trace. -/
def countPolls : List Event → Nat
  | [] => 0
  | Event.poll _ _ :: r => countPolls r + 1
  | _ :: r => countPolls r

/-- Number of sleeps in a trace. -/
def countSleeps : List Event → Nat
  | [] => 0
  | Event.sleep _ :: r => countSleeps r + 1
  | _ :: r => countSleeps r

/-- Number of update calls whose field map writes `output_video`. -/
def countOutputWrites : List Event → Nat
  | [] => 0
  | Event.update u _ :: r =>
    (if u.output_video = none then 0 else 1) + countOutputWrites r
  | _ :: r => countOutputWrites r

/-- Every poll request in a trace is strictly preceded by more sleeps
than polls; in particular the first poll happens only after a sleep. -/
def sleepBefore (l : List Event) : Prop :=
  ∀ p q n j, l = p ++ Event.poll n j :: q → countPolls p < countSleeps p

theorem countPolls_append (l₁ l₂ : List Event) :
    countPolls (l₁ ++ l₂) = countPolls l₁ + countPolls l₂ := by
  induction l₁ with
  | nil => simp [countPolls]
  | cons e r ih =>
    cases e <;> simp [countPolls, ih]
    all_goals omega

theorem countSleeps_append (l₁ l₂ : List Event) :
    countSleeps (l₁ ++ l₂) = countSleeps l₁ + countSleeps l₂ := by
  induction l₁ with
  | nil => simp [countSleeps]
  | cons e r ih =>
    cases e <;> simp [countSleeps, ih]
    all_goals omega

theorem countOutputWrites_append (l₁ l₂ : List Event) :
    countOutputWrites (l₁ ++ l₂) =
      countOutputWrites l₁ + countOutputWrites l₂ := by
  induction l₁ with
  | nil => simp [countOutputWrites]
  | cons e r ih =>
    cases e <;> simp [countOutputWrites, ih]
    all_goals omega

theorem poll_not_mem_of_countPolls_zero {l : List Event}
    (h : countPolls l = 0) (n : Nat) (j : Option String) :
    Event.poll n j ∉ l := by
  induction l with
  | nil => simp
  | cons e r ih =>
    cases e <;> simp_all [countPolls]

theorem countPolls_zero_of_forall {l : List Event}
    (h : ∀ e ∈ l, ∀ n j, e ≠ Event.poll n j) : countPolls l = 0 := by
  induction l with
  | nil => rfl
  | cons e r ih =>
    cases e <;> simp_all [countPolls]

theorem pollLoop_countPolls_le (env : Env) (jid : Option String) :
    ∀ f k a, countPolls (pollLoop env jid k a f).1 ≤ f := by
  intro f
  induction f with
  | zero => intro k a; simp [pollLoop, countPolls]
  | succ f ih =>
    intro k a
    simp only [pollLoop]
    by_cases h : env.updateOk k = false
    · simp [h, countPolls]
    · simp only [h, if_false]
      by_cases hc : statusOf (env.pollResp (a + 1)) = some "completed"
      · simp only [hc, if_true]
        cases ho : firstOutput (env.pollResp (a + 1)) with
        | none => simp [countPolls]
        | some u =>
          by_cases hu : u = ""
          · simp [hu, countPolls]
          · simp [hu, countPolls, countPolls_append]
      · simp only [hc, if_false]
        by_cases hf : statusOf (env.pollResp (a + 1)) = some "failed"
        · simp [hf, countPolls]
        · simp only [hf, if_false]
          simp [countPolls_append, countPolls]
          have := ih (k + 1) (a + 1)
          omega

theorem pollLoop_poll_mem (env : Env) (jid : Option String) :
    ∀ f k a m j2, Event.poll m j2 ∈ (pollLoop env jid k a f).1 →
      a < m ∧ m ≤ a + f ∧ j2 = jid := by
  intro f
  induction f with
  | zero => intro k a m j2 h; simp [pollLoop] at h
  | succ f ih =>
    intro k a m j2 h
    simp only [pollLoop] at h
    by_cases hk : env.updateOk k = false
    · simp [hk] at h
    · simp only [hk, if_false] at h
      by_cases hc : statusOf (env.pollResp (a + 1)) = some "completed"
      · simp only [hc, if_true] at h
        cases ho : firstOutput (env.pollResp (a + 1)) with
        | none =>
          simp [ho] at h
          obtain ⟨h1, h2⟩ := h
          exact ⟨by omega, by omega, h2⟩
        | some u =>
          by_cases hu : u = ""
          · simp [ho, hu] at h
            obtain ⟨h1, h2⟩ := h
            exact ⟨by omega, by omega, h2⟩
          · simp [ho, hu] at h
            obtain ⟨h1, h2⟩ := h
            exact ⟨by omega, by omega, h2⟩
      · simp only [hc, if_false] at h
        by_cases hf : statusOf (env.pollResp (a + 1)) = some "failed"
        · simp [hf] at h
          obtain ⟨h1, h2⟩ := h
          exact ⟨by omega, by omega, h2⟩
        · simp only [hf, if_false] at h
          simp at h
          rcases h with ⟨h1, h2⟩ | h
          · exact ⟨by omega, by omega, h2⟩
          · have := ih (k + 1) (a + 1) m j2 h
            exact ⟨by omega, by omega, this.2.2⟩

theorem pollLoop_no_submit (env : Env) (jid : Option String) :
    ∀ f k a p, Event.submit p ∉ (pollLoop env jid k a f).1 := by
  intro f
  induction f with
  | zero => intro k a p; simp [pollLoop]
  | succ f ih =>
    intro k a p
    simp only [pollLoop]
    by_cases hk : env.updateOk k = false
    · simp [hk]
    · simp only [hk, if_false]
      by_cases hc : statusOf (env.pollResp (a + 1)) = some "completed"
      · simp only [hc, if_true]
        cases ho : firstOutput (env.pollResp (a + 1)) with
        | none => simp
        | some u =>
          by_cases hu : u = ""
          · simp [hu]
          · simp [hu]
      · simp only [hc, if_false]
        by_cases hf : statusOf (env.pollResp (a + 1)) = some "failed"
        · simp [hf]
        · simp only [hf, if_false]
          simp
          exact ih (k + 1) (a + 1) p

theorem pollLoop_sleep_mem (env : Env) (jid : Option String) :
    ∀ f k a ms, Event.sleep ms ∈ (pollLoop env jid k a f).1 → ms = 5000 := by
  intro f
  induction f with
  | zero => intro k a ms h; simp [pollLoop] at h
  | succ f ih =>
    intro k a ms h
    simp only [pollLoop] at h
    by_cases hk : env.updateOk k = false
    · simp [hk] at h; exact h
    · simp only [hk, if_false] at h
      by_cases hc : statusOf (env.pollResp (a + 1)) = some "completed"
      · simp only [hc, if_true] at h
        cases ho : firstOutput (env.pollResp (a + 1)) with
        | none => simp [ho] at h; exact h
        | some u =>
          by_cases hu : u = ""
          · simp [ho, hu] at h; exact h
          · simp [ho, hu] at h; exact h
      · simp only [hc, if_false] at h
        by_cases hf : statusOf (env.pollResp (a + 1)) = some "failed"
        · simp [hf] at h; exact h
        · simp only [hf, if_false] at h
          simp at h
          rcases h with h | h
          · exact h
          · exact ih (k + 1) (a + 1) ms h

theorem pollLoop_update_mem (env : Env) (jid : Option String) :
    ∀ f k a u b, Event.update u b ∈ (pollLoop env jid k a f).1 →
      (∃ n, u = progressUpdate env jid n) ∨ ∃ n v, u = successUpdate env n v := by
  intro f
  induction f with
  | zero => intro k a u b h; simp [pollLoop] at h
  | succ f ih =>
    intro k a u b h
    simp only [pollLoop] at h
    by_cases hk : env.updateOk k = false
    · simp [hk] at h
      exact Or.inl ⟨a + 1, h.1⟩
    · simp only [hk, if_false] at h
      by_cases hc : statusOf (env.pollResp (a + 1)) = some "completed"
      · simp only [hc, if_true] at h
        cases ho : firstOutput (env.pollResp (a + 1)) with
        | none =>
          simp [ho] at h
          exact Or.inl ⟨a + 1, h.1⟩
        | some v =>
          by_cases hu : v = ""
          · simp [ho, hu] at h
            exact Or.inl ⟨a + 1, h.1⟩
          · simp [ho, hu] at h
            rcases h with h | h
            · exact Or.inl ⟨a + 1, h.1⟩
            · exact Or.inr ⟨a + 1, v, h.1⟩
      · simp only [hc, if_false] at h
        by_cases hf : statusOf (env.pollResp (a + 1)) = some "failed"
        · simp [hf] at h
          exact Or.inl ⟨a + 1, h.1⟩
        · simp only [hf, if_false] at h
          simp at h
          rcases h with h | h
          · exact Or.inl ⟨a + 1, h.1⟩
          · exact ih (k + 1) (a + 1) u b h

theorem pollLoop_countOutput_le (env : Env) (jid : Option String) :
    ∀ f k a, countOutputWrites (pollLoop env jid k a f).1 ≤ 1 := by
  intro f
  induction f with
  | zero => intro k a; simp [pollLoop, countOutputWrites]
  | succ f ih =>
    intro k a
    simp only [pollLoop]
    by_cases hk : env.updateOk k = false
    · simp [hk, countOutputWrites, progressUpdate]
    · simp only [hk, if_false]
      by_cases hc : statusOf (env.pollResp (a + 1)) = some "completed"
      · simp only [hc, if_true]
        cases ho : firstOutput (env.pollResp (a + 1)) with
        | none => simp [countOutputWrites, progressUpdate]
        | some u =>
          by_cases hu : u = ""
          · simp [hu, countOutputWrites, progressUpdate]
          · simp [hu, countOutputWrites, countOutputWrites_append,
              progressUpdate, successUpdate]
      · simp only [hc, if_false]
        by_cases hf : statusOf (env.pollResp (a + 1)) = some "failed"
        · simp [hf, countOutputWrites, progressUpdate]
        · simp only [hf, if_false]
          simp [countOutputWrites_append, countOutputWrites, progressUpdate]
          exact ih (k + 1) (a + 1)

theorem sleepBefore_of_countPolls_zero {l : List Event}
    (h : countPolls l = 0) : sleepBefore l := by
  intro p q n j he
  rw [he, countPolls_append] at h
  simp [countPolls] at h

theorem sleepBefore_append {xs ys : List Event} (hx : sleepBefore xs)
    (hbal : countPolls xs ≤ countSleeps xs) (hy : sleepBefore ys) :
    sleepBefore (xs ++ ys) := by
  intro p q n j he
  rcases List.append_eq_append_iff.mp he with ⟨a1, ha1, ha2⟩ | ⟨c1, hc1, hc2⟩
  · have h1 := hy a1 q n j ha2
    rw [ha1, countPolls_append, countSleeps_append]
    omega
  · cases c1 with
    | nil =>
      simp at hc2
      have h0 := hy [] q n j hc2.symm
      simp [countPolls, countSleeps] at h0
    | cons e c2 =>
      have he2 : e = Event.poll n j ∧ c2 ++ ys = q := by
        constructor
        · exact (List.cons.injEq _ _ _ _ ▸ hc2.symm).1
        · exact (List.cons.injEq _ _ _ _ ▸ hc2.symm).2
      have hx1 := hx p c2 n j (by rw [hc1, he2.1])
      exact hx1

theorem sleepBefore_iter {tail : List Event} (u : Event)
    (hu : ∀ n j, u ≠ Event.poll n j) (n0 : Nat) (j0 : Option String)
    (ht : sleepBefore tail) :
    sleepBefore (Event.sleep 5000 :: u :: Event.poll n0 j0 :: tail) := by
  intro p q n j he
  cases p with
  | nil => simp at he
  | cons e1 p1 =>
    rw [List.cons_append, List.cons.injEq] at he
    obtain ⟨he1, he⟩ := he
    cases p1 with
    | nil =>
      simp at he
      exact absurd he.1 (hu n j)
    | cons e2 p2 =>
      rw [List.cons_append, List.cons.injEq] at he
      obtain ⟨he2, he⟩ := he
      cases p2 with
      | nil =>
        subst he1; subst he2
        simp at he
        cases u <;> simp_all [countPolls, countSleeps]
      | cons e3 p3 =>
        rw [List.cons_append, List.cons.injEq] at he
        obtain ⟨he3, he⟩ := he
        have h3 := ht p3 q n j he
        subst he1; subst he2; subst he3
        cases u <;> simp_all [countPolls, countSleeps]
        all_goals omega

theorem pollLoop_sleepBefore (env : Env) (jid : Option String) :
    ∀ f k a, sleepBefore (pollLoop env jid k a f).1 ∧
      countPolls (pollLoop env jid k a f).1 ≤
        countSleeps (pollLoop env jid k a f).1 := by
  intro f
  induction f with
  | zero =>
    intro k a
    constructor
    · exact sleepBefore_of_countPolls_zero (by simp [pollLoop, countPolls])
    · simp [pollLoop, countPolls, countSleeps]
  | succ f ih =>
    intro k a
    simp only [pollLoop]
    by_cases hk : env.updateOk k = false
    · simp only [hk, if_true]
      constructor
      · exact sleepBefore_of_countPolls_zero (by simp [countPolls])
      · simp [countPolls, countSleeps]
    · simp only [hk, if_false]
      by_cases hc : statusOf (env.pollResp (a + 1)) = some "completed"
      · simp only [hc, if_true]
        cases ho : firstOutput (env.pollResp (a + 1)) with
        | none =>
          constructor
          · exact sleepBefore_iter _ (by intro n j h; cases h) _ _
              (sleepBefore_of_countPolls_zero rfl)
          · simp [countPolls, countSleeps]
        | some u =>
          by_cases hu : u = ""
          · simp only [hu, if_true]
            constructor
            · exact sleepBefore_iter _ (by intro n j h; cases h) _ _
                (sleepBefore_of_countPolls_zero rfl)
            · simp [countPolls, countSleeps]
          · simp only [hu, if_false]
            constructor
            · simp only [List.cons_append, List.nil_append]
              exact sleepBefore_iter _ (by intro n j h; cases h) _ _
                (sleepBefore_of_countPolls_zero (by simp [countPolls]))
            · simp [countPolls, countSleeps, countPolls_append,
                countSleeps_append]
      · simp only [hc, if_false]
        by_cases hf : statusOf (env.pollResp (a + 1)) = some "failed"
        · simp only [hf, if_true]
          constructor
          · exact sleepBefore_iter _ (by intro n j h; cases h) _ _
              (sleepBefore_of_countPolls_zero rfl)
          · simp [countPolls, countSleeps]
        · simp only [hf, if_false]
          have hrest := ih (k + 1) (a + 1)
          constructor
          · simp only [List.cons_append, List.nil_append]
            exact sleepBefore_iter _ (by intro n j h; cases h) _ _ hrest.1
          · simp [countPolls, countSleeps, countPolls_append,
              countSleeps_append]
            omega

theorem pollLoop_timeout (env : Env) (jid : Option String)
    (hupd : ∀ k2, env.updateOk k2 = true)
    (hnt : ∀ m, statusOf (env.pollResp m) ≠ some "completed" ∧
      statusOf (env.pollResp m) ≠ some "failed") :
    ∀ f k a, countPolls (pollLoop env jid k a f).1 = f ∧
      (pollLoop env jid k a f).2.1 = some timeoutMsg := by
  intro f
  induction f with
  | zero => intro k a; simp [pollLoop, countPolls]
  | succ f ih =>
    intro k a
    have h1 := hupd k
    have h2 := hnt (a + 1)
    simp only [pollLoop, h1, h2.1, h2.2, if_false]
    simp [countPolls_append, countPolls, (ih (k + 1) (a + 1)).1,
      (ih (k + 1) (a + 1)).2]

theorem pollLoop_updfail (env : Env) (jid : Option String)
    (k a f : Nat) (h : env.updateOk k = false) :
    pollLoop env jid k a (f + 1) =
      ([Event.sleep 5000, Event.update (progressUpdate env jid (a + 1)) false],
        some (env.updateErr k), k + 1) := by
  simp [pollLoop, h]

theorem pollLoop_completed (env : Env) (jid : Option String) :
    ∀ f k a n j2 u,
      Event.poll n j2 ∈ (pollLoop env jid k a f).1 →
      statusOf (env.pollResp n) = some "completed" →
      firstOutput (env.pollResp n) = some u → u ≠ "" →
      (∃ b, Event.update (successUpdate env n u) b ∈ (pollLoop env jid k a f).1) ∧
        ∀ m j3, Event.poll m j3 ∈ (pollLoop env jid k a f).1 → m ≤ n := by
  intro f
  induction f with
  | zero => intro k a n j2 u h; simp [pollLoop] at h
  | succ f ih =>
    intro k a n j2 u h hc ho hu
    simp only [pollLoop] at h ⊢
    by_cases hk : env.updateOk k = false
    · simp [hk] at h
    · simp only [hk, if_false] at h ⊢
      by_cases hc1 : statusOf (env.pollResp (a + 1)) = some "completed"
      · simp only [hc1, if_true] at h ⊢
        cases ho1 : firstOutput (env.pollResp (a + 1)) with
        | none =>
          simp [ho1] at h
          rw [h.1] at ho
          rw [ho1] at ho
          cases ho
        | some v =>
          by_cases hv : v = ""
          · simp [ho1, hv] at h
            rw [h.1] at ho
            rw [ho1] at ho
            rw [Option.some.injEq] at ho
            exact absurd (hv ▸ ho.symm) hu
          · simp only [ho1, hv, if_false] at h ⊢
            simp at h
            have hn : n = a + 1 := h.1
            rw [hn] at ho
            rw [ho1, Option.some.injEq] at ho
            subst ho
            constructor
            · exact ⟨env.updateOk (k + 1), by simp [hn]⟩
            · intro m j3 hm
              simp at hm
              omega
      · simp only [hc1, if_false] at h ⊢
        by_cases hf : statusOf (env.pollResp (a + 1)) = some "failed"
        · simp [hf] at h
          rw [h.1] at hc
          exact absurd hc hc1
        · simp only [hf, if_false] at h ⊢
          simp at h
          rcases h with ⟨hn, hj⟩ | h
          · rw [hn] at hc
            exact absurd hc hc1
          · have hrec := ih (k + 1) (a + 1) n j2 u h hc ho hu
            have hgt := pollLoop_poll_mem env jid f (k + 1) (a + 1) n j2 h
            constructor
            · obtain ⟨b, hb⟩ := hrec.1
              exact ⟨b, by simp [hb]⟩
            · intro m j3 hm
              simp at hm
              rcases hm with ⟨hm, _⟩ | hm
              · omega
              · exact hrec.2 m j3 hm

theorem applyEvents_append (s : StoreState) (l₁ l₂ : List Event) :
    applyEvents s (l₁ ++ l₂) = applyEvents (applyEvents s l₁) l₂ := by
  induction l₁ generalizing s with
  | nil => rfl
  | cons e r ih =>
    cases e with
    | update u b => cases b <;> simp [applyEvents, ih]
    | find b => simp [applyEvents, ih]
    | submit p => simp [applyEvents, ih]
    | sleep ms => simp [applyEvents, ih]
    | poll n j => simp [applyEvents, ih]
    | download v => simp [applyEvents, ih]

/-- Events that the body of the run issues outside the poll loop: a
record fetch, an update that does not write `output_video`, or the
single submission built by `mkPayload` from the fetched record. -/
def bodyEv (env : Env) (e : Event) : Prop :=
  (∃ b, e = Event.find b) ∨
  (∃ u b, e = Event.update u b ∧ u.output_video = none) ∨
  (∃ f, env.record = some f ∧
    e = Event.submit (mkPayload f ((firstUrl f.input_image).getD "")
      ((firstUrl f.input_video).getD "")))

theorem bodyEv_find (env : Env) (b : Bool) : bodyEv env (Event.find b) :=
  Or.inl ⟨b, rfl⟩

theorem bodyEv_update (env : Env) (u : UpdateFields) (b : Bool)
    (h : u.output_video = none) : bodyEv env (Event.update u b) :=
  Or.inr (Or.inl ⟨u, b, rfl, h⟩)

theorem bodyEv_submit (env : Env) (f : Fields) (h : env.record = some f) :
    bodyEv env (Event.submit (mkPayload f ((firstUrl f.input_image).getD "")
      ((firstUrl f.input_video).getD ""))) :=
  Or.inr (Or.inr ⟨f, h, rfl⟩)

theorem preSubmitUpdate_output (env : Env) (m r : String) :
    (preSubmitUpdate env m r).output_video = none := rfl

theorem persistUpdate_output (env : Env) (jid : Option String) :
    (persistUpdate env jid).output_video = none := rfl

theorem failedUpdate_output (env : Env) (m : String) :
    (failedUpdate env m).output_video = none := rfl

/-- Decomposition of the events of the try-body: either the run never
reaches the poll loop and every event is a body event, or the trace is
a body prefix (containing the successful persist write) followed by the
poll-loop events. -/
theorem runBody_shape (env : Env) :
    ∃ pre, ((runBody env).1 = pre ∧ ∀ e ∈ pre, bodyEv env e) ∨
      (∃ d, env.submitResp.data = some d ∧
        (runBody env).1 = pre ++ (pollLoop env d.id 2 0 120).1 ∧
        (∀ e ∈ pre, bodyEv env e) ∧
        Event.update (persistUpdate env d.id) true ∈ pre) := by
  cases hrec : env.record with
  | none =>
    refine ⟨[Event.find false], Or.inl ⟨by simp [runBody, hrec], ?_⟩⟩
    intro e he
    simp at he
    rw [he]
    exact bodyEv_find env false
  | some f =>
    by_cases h1 : truthy (firstUrl f.input_image) = false
    · refine ⟨[Event.find true], Or.inl ⟨by simp [runBody, hrec, h1], ?_⟩⟩
      intro e he
      simp at he
      rw [he]
      exact bodyEv_find env true
    · by_cases h2 : truthy (firstUrl f.input_video) = false
      · refine ⟨[Event.find true], Or.inl ⟨by simp [runBody, hrec, h1, h2], ?_⟩⟩
        intro e he
        simp at he
        rw [he]
        exact bodyEv_find env true
      · by_cases h3 : env.updateOk 0 = false
        · refine ⟨[Event.find true,
            Event.update (preSubmitUpdate env (jsOr f.mode "animate")
              (jsOr f.resolution "480p")) (env.updateOk 0)],
            Or.inl ⟨by simp [runBody, hrec, h1, h2, h3], ?_⟩⟩
          intro e he
          simp at he
          rcases he with he | he
          · rw [he]; exact bodyEv_find env true
          · rw [he]; exact bodyEv_update env _ _ (preSubmitUpdate_output env _ _)
        · by_cases h4 : env.submitResp.ok = false ∨ env.submitResp.code ≠ some 200
          · refine ⟨[Event.find true,
              Event.update (preSubmitUpdate env (jsOr f.mode "animate")
                (jsOr f.resolution "480p")) (env.updateOk 0),
              Event.submit (mkPayload f ((firstUrl f.input_image).getD "")
                ((firstUrl f.input_video).getD ""))],
              Or.inl ⟨by simp [runBody, hrec, h1, h2, h3, h4], ?_⟩⟩
            intro e he
            simp at he
            rcases he with he | he | he
            · rw [he]; exact bodyEv_find env true
            · rw [he]; exact bodyEv_update env _ _ (preSubmitUpdate_output env _ _)
            · rw [he]; exact bodyEv_submit env f hrec
          · cases hd : env.submitResp.data with
            | none =>
              refine ⟨[Event.find true,
                Event.update (preSubmitUpdate env (jsOr f.mode "animate")
                  (jsOr f.resolution "480p")) (env.updateOk 0),
                Event.submit (mkPayload f ((firstUrl f.input_image).getD "")
                  ((firstUrl f.input_video).getD ""))],
                Or.inl ⟨by simp [runBody, hrec, h1, h2, h3, h4, hd], ?_⟩⟩
              intro e he
              simp at he
              rcases he with he | he | he
              · rw [he]; exact bodyEv_find env true
              · rw [he]; exact bodyEv_update env _ _ (preSubmitUpdate_output env _ _)
              · rw [he]; exact bodyEv_submit env f hrec
            | some d =>
              by_cases h5 : env.updateOk 1 = false
              · refine ⟨[Event.find true,
                  Event.update (preSubmitUpdate env (jsOr f.mode "animate")
                    (jsOr f.resolution "480p")) (env.updateOk 0),
                  Event.submit (mkPayload f ((firstUrl f.input_image).getD "")
                    ((firstUrl f.input_video).getD "")),
                  Event.update (persistUpdate env d.id) (env.updateOk 1)],
                  Or.inl ⟨by simp [runBody, hrec, h1, h2, h3, h4, hd, h5], ?_⟩⟩
                intro e he
                simp at he
                rcases he with he | he | he | he
                · rw [he]; exact bodyEv_find env true
                · rw [he]; exact bodyEv_update env _ _ (preSubmitUpdate_output env _ _)
                · rw [he]; exact bodyEv_submit env f hrec
                · rw [he]; exact bodyEv_update env _ _ (persistUpdate_output env _)
              · have h5t : env.updateOk 1 = true := by
                  revert h5; cases env.updateOk 1 <;> simp
                refine ⟨[Event.find true,
                  Event.update (preSubmitUpdate env (jsOr f.mode "animate")
                    (jsOr f.resolution "480p")) (env.updateOk 0),
                  Event.submit (mkPayload f ((firstUrl f.input_image).getD "")
                    ((firstUrl f.input_video).getD "")),
                  Event.update (persistUpdate env d.id) true],
                  Or.inr ⟨d, rfl, ?_, ?_, by simp⟩⟩
                · simp [runBody, hrec, h1, h2, h3, h4, hd, h5t]
                · intro e he
                  simp at he
                  rcases he with he | he | he | he
                  · rw [he]; exact bodyEv_find env true
                  · rw [he]; exact bodyEv_update env _ _ (preSubmitUpdate_output env _ _)
                  · rw [he]; exact bodyEv_submit env f hrec
                  · rw [he]; exact bodyEv_update env _ _ (persistUpdate_output env _)

/-- Decomposition of the whole run's trace: a body prefix, optionally
the poll-loop events, and an optional trailing failure write; poll and
sleep events occur only in the middle segment. -/
theorem run_shape (env : Env) :
    ∃ pre mid post,
      (run env).1 = pre ++ mid ++ post ∧
      (∀ e ∈ pre, bodyEv env e) ∧ (∀ e ∈ post, bodyEv env e) ∧
      (mid = [] ∨ ∃ d, env.submitResp.data = some d ∧
        mid = (pollLoop env d.id 2 0 120).1 ∧
        Event.update (persistUpdate env d.id) true ∈ pre) := by
  obtain ⟨pre, hcase⟩ := runBody_shape env
  have hfail : ∀ m, bodyEv env
      (Event.update (failedUpdate env m) (env.updateOk (runBody env).2.2)) :=
    fun m => bodyEv_update env _ _ (failedUpdate_output env m)
  rcases hcase with ⟨hb, hpre⟩ | ⟨d, hd, hb, hpre, hmem⟩
  · cases ho : (runBody env).2.1 with
    | none =>
      refine ⟨pre, [], [], ?_, hpre, by simp, Or.inl rfl⟩
      simp [run, ho, hb]
    | some m =>
      refine ⟨pre, [],
        [Event.update (failedUpdate env m) (env.updateOk (runBody env).2.2)],
        ?_, hpre, ?_, Or.inl rfl⟩
      · simp [run, ho, hb]
      · intro e he
        simp at he
        rw [he]
        exact hfail m
  · cases ho : (runBody env).2.1 with
    | none =>
      refine ⟨pre, (pollLoop env d.id 2 0 120).1, [], ?_, hpre, by simp,
        Or.inr ⟨d, hd, rfl, hmem⟩⟩
      simp [run, ho, hb]
    | some m =>
      refine ⟨pre, (pollLoop env d.id 2 0 120).1,
        [Event.update (failedUpdate env m) (env.updateOk (runBody env).2.2)],
        ?_, hpre, ?_, Or.inr ⟨d, hd, rfl, hmem⟩⟩
      · simp [run, ho, hb]
      · intro e he
        simp at he
        rw [he]
        exact hfail m

theorem countSleeps_zero_of_forall {l : List Event}
    (h : ∀ e ∈ l, ∀ ms, e ≠ Event.sleep ms) : countSleeps l = 0 := by
  induction l with
  | nil => rfl
  | cons e r ih =>
    cases e <;> simp_all [countSleeps]

theorem countOutputWrites_zero_of_forall {l : List Event}
    (h : ∀ e ∈ l, ∀ u b, e = Event.update u b → u.output_video = none) :
    countOutputWrites l = 0 := by
  induction l with
  | nil => rfl
  | cons e r ih =>
    cases e with
    | update u b =>
      have hu := h _ (by simp) u b rfl
      simp [countOutputWrites, hu]
      exact ih fun e he u2 b2 h2 => h e (by simp [he]) u2 b2 h2
    | find b => simp [countOutputWrites]; exact ih fun e he u2 b2 h2 => h e (by simp [he]) u2 b2 h2
    | submit p => simp [countOutputWrites]; exact ih fun e he u2 b2 h2 => h e (by simp [he]) u2 b2 h2
    | sleep ms => simp [countOutputWrites]; exact ih fun e he u2 b2 h2 => h e (by simp [he]) u2 b2 h2
    | poll n j => simp [countOutputWrites]; exact ih fun e he u2 b2 h2 => h e (by simp [he]) u2 b2 h2
    | download v => simp [countOutputWrites]; exact ih fun e he u2 b2 h2 => h e (by simp [he]) u2 b2 h2

theorem bodyEv_no_poll {env : Env} {e : Event} (h : bodyEv env e) :
    ∀ n j, e ≠ Event.poll n j := by
  rcases h with ⟨b, rfl⟩ | ⟨u, b, rfl, _⟩ | ⟨f, _, rfl⟩ <;> intro n j <;> simp

theorem bodyEv_no_sleep {env : Env} {e : Event} (h : bodyEv env e) :
    ∀ ms, e ≠ Event.sleep ms := by
  rcases h with ⟨b, rfl⟩ | ⟨u, b, rfl, _⟩ | ⟨f, _, rfl⟩ <;> intro ms <;> simp

theorem bodyEv_countPolls_zero {env : Env} {l : List Event}
    (h : ∀ e ∈ l, bodyEv env e) : countPolls l = 0 :=
  countPolls_zero_of_forall fun e he => bodyEv_no_poll (h e he)

theorem bodyEv_countSleeps_zero {env : Env} {l : List Event}
    (h : ∀ e ∈ l, bodyEv env e) : countSleeps l = 0 :=
  countSleeps_zero_of_forall fun e he => bodyEv_no_sleep (h e he)

theorem bodyEv_countOutput_zero {env : Env} {l : List Event}
    (h : ∀ e ∈ l, bodyEv env e) : countOutputWrites l = 0 := by
  apply countOutputWrites_zero_of_forall
  intro e he u b hub
  rcases h e he with ⟨b2, h2⟩ | ⟨u2, b2, h2, ho⟩ | ⟨f, _, h2⟩
  · rw [hub] at h2; cases h2
  · rw [hub] at h2
    rw [Event.update.injEq] at h2
    rw [← h2.1] at ho
    exact ho
  · rw [hub] at h2; cases h2

/-- Every run issues at most 120 poll (status-check) requests. -/
theorem run_countPolls_le (env : Env) : countPolls (run env).1 ≤ 120 := by
  obtain ⟨pre, mid, post, heq, hpre, hpost, hmid⟩ := run_shape env
  have hp := bodyEv_countPolls_zero hpre
  have hq := bodyEv_countPolls_zero hpost
  rw [heq, countPolls_append, countPolls_append]
  rcases hmid with rfl | ⟨d, _, rfl, _⟩
  · simp [countPolls, hp, hq]
  · have := pollLoop_countPolls_le env d.id 120 2 0
    omega

/-- Every sleep a run performs is the fixed 5000 ms interval. -/
theorem run_sleep_mem (env : Env) (ms : Nat)
    (h : Event.sleep ms ∈ (run env).1) : ms = 5000 := by
  obtain ⟨pre, mid, post, heq, hpre, hpost, hmid⟩ := run_shape env
  rw [heq] at h
  rcases List.mem_append.mp h with h12 | h1
  · rcases List.mem_append.mp h12 with h1 | h1
    · exact absurd rfl (bodyEv_no_sleep (hpre _ h1) ms)
    · rcases hmid with rfl | ⟨d, _, rfl, _⟩
      · cases h1
      · exact pollLoop_sleep_mem env d.id 120 2 0 ms h1
  · exact absurd rfl (bodyEv_no_sleep (hpost _ h1) ms)

/-- In every run, each poll request is preceded by strictly more sleeps
than polls; in particular the first status check happens only after the
first sleep. -/
theorem run_sleepBefore (env : Env) : sleepBefore (run env).1 := by
  obtain ⟨pre, mid, post, heq, hpre, hpost, hmid⟩ := run_shape env
  rw [heq]
  have hmids : sleepBefore mid ∧ countPolls mid ≤ countSleeps mid := by
    rcases hmid with rfl | ⟨d, _, rfl, _⟩
    · exact ⟨sleepBefore_of_countPolls_zero rfl, by simp [countPolls, countSleeps]⟩
    · exact pollLoop_sleepBefore env d.id 120 2 0
  apply sleepBefore_append
  · exact sleepBefore_append
      (sleepBefore_of_countPolls_zero (bodyEv_countPolls_zero hpre))
      (by rw [bodyEv_countPolls_zero hpre]; omega) hmids.1
  · rw [countPolls_append, countSleeps_append, bodyEv_countPolls_zero hpre]
    have := hmids.2
    omega
  · exact sleepBefore_of_countPolls_zero (bodyEv_countPolls_zero hpost)

/-- Every run writes `output_video` at most once. -/
theorem run_countOutput_le (env : Env) :
    countOutputWrites (run env).1 ≤ 1 := by
  obtain ⟨pre, mid, post, heq, hpre, hpost, hmid⟩ := run_shape env
  have hp := bodyEv_countOutput_zero hpre
  have hq := bodyEv_countOutput_zero hpost
  rw [heq, countOutputWrites_append, countOutputWrites_append]
  rcases hmid with rfl | ⟨d, _, rfl, _⟩
  · simp [countOutputWrites, hp, hq]
  · have := pollLoop_countOutput_le env d.id 120 2 0
    omega

/-- Every update of a run that writes `output_video` is the success
update of some attempt. -/
theorem run_output_update (env : Env) (u : UpdateFields) (b : Bool)
    (hmem : Event.update u b ∈ (run env).1) (h : u.output_video ≠ none) :
    ∃ n v, u = successUpdate env n v := by
  obtain ⟨pre, mid, post, heq, hpre, hpost, hmid⟩ := run_shape env
  rw [heq] at hmem
  have hbody : ∀ e ∈ pre ++ post, bodyEv env e → False → True := fun _ _ _ _ => trivial
  have hside : ∀ {l : List Event}, (∀ e ∈ l, bodyEv env e) →
      Event.update u b ∈ l → False := by
    intro l hl hm
    rcases hl _ hm with ⟨b2, h2⟩ | ⟨u2, b2, h2, ho⟩ | ⟨f, _, h2⟩
    · cases h2
    · rw [Event.update.injEq] at h2
      rw [← h2.1] at ho
      exact h ho
    · cases h2
  rcases List.mem_append.mp hmem with h12 | h1
  · rcases List.mem_append.mp h12 with h1 | h1
    · exact absurd h1 fun hm => hside hpre hm
    · rcases hmid with rfl | ⟨d, _, rfl, _⟩
      · cases h1
      · rcases pollLoop_update_mem env d.id 120 2 0 u b h1 with ⟨n, hn⟩ | hn
        · rw [hn] at h
          exact absurd rfl h
        · exact hn
  · exact absurd h1 fun hm => hside hpost hm

/-- Every submission a run issues carries the payload built by
`mkPayload` from the fetched record. -/
theorem submit_mem_run (env : Env) (p : Payload)
    (h : Event.submit p ∈ (run env).1) :
    ∃ f, env.record = some f ∧
      p = mkPayload f ((firstUrl f.input_image).getD "")
        ((firstUrl f.input_video).getD "") := by
  obtain ⟨pre, mid, post, heq, hpre, hpost, hmid⟩ := run_shape env
  rw [heq] at h
  have hside : ∀ {l : List Event}, (∀ e ∈ l, bodyEv env e) →
      Event.submit p ∈ l →
      ∃ f, env.record = some f ∧
        p = mkPayload f ((firstUrl f.input_image).getD "")
          ((firstUrl f.input_video).getD "") := by
    intro l hl hm
    rcases hl _ hm with ⟨b2, h2⟩ | ⟨u2, b2, h2, _⟩ | ⟨f, hf, h2⟩
    · cases h2
    · cases h2
    · rw [Event.submit.injEq] at h2
      exact ⟨f, hf, h2⟩
  rcases List.mem_append.mp h with h12 | h1
  · rcases List.mem_append.mp h12 with h1 | h1
    · exact hside hpre h1
    · rcases hmid with rfl | ⟨d, _, rfl, _⟩
      · cases h1
      · exact absurd h1 (pollLoop_no_submit env d.id 120 2 0 p)
  · exact hside hpost h1

/-- If a run issues any poll request, its trace splits into a loop-free
prefix containing the successful persist write, the poll-loop events, and
a poll-free suffix; the poll carries the job id of the submission
response. -/
theorem run_poll_decomp (env : Env) (n : Nat) (j : Option String)
    (h : Event.poll n j ∈ (run env).1) :
    ∃ d pre post, env.submitResp.data = some d ∧
      (run env).1 = pre ++ (pollLoop env d.id 2 0 120).1 ++ post ∧
      countPolls pre = 0 ∧ countPolls post = 0 ∧
      Event.update (persistUpdate env d.id) true ∈ pre ∧
      Event.poll n j ∈ (pollLoop env d.id 2 0 120).1 ∧ j = d.id := by
  obtain ⟨pre, mid, post, heq, hpre, hpost, hmid⟩ := run_shape env
  have hp := bodyEv_countPolls_zero hpre
  have hq := bodyEv_countPolls_zero hpost
  rw [heq] at h
  have hin : Event.poll n j ∈ mid := by
    rcases List.mem_append.mp h with h12 | h1
    · rcases List.mem_append.mp h12 with h1 | h1
      · exact absurd h1 (poll_not_mem_of_countPolls_zero hp n j)
      · exact h1
    · exact absurd h1 (poll_not_mem_of_countPolls_zero hq n j)
  rcases hmid with rfl | ⟨d, hd, rfl, hpersist⟩
  · cases hin
  · have hj := pollLoop_poll_mem env d.id 120 2 0 n j hin
    exact ⟨d, pre, post, hd, heq, hp, hq, hpersist, hin, hj.2.2⟩

/-- On the path where the record is valid, the first two writes succeed
and the submission passes its check with a `data` object present, the
try-body is the four body events followed by the poll loop. -/
theorem runBody_reach (env : Env) (f : Fields) (d : SubmitData)
    (hrec : env.record = some f)
    (himg : truthy (firstUrl f.input_image) = true)
    (hvid : truthy (firstUrl f.input_video) = true)
    (h0 : env.updateOk 0 = true)
    (hok : env.submitResp.ok = true)
    (hcode : env.submitResp.code = some 200)
    (hd : env.submitResp.data = some d)
    (h1 : env.updateOk 1 = true) :
    runBody env =
      ([Event.find true,
        Event.update (preSubmitUpdate env (jsOr f.mode "animate")
          (jsOr f.resolution "480p")) true,
        Event.submit (mkPayload f ((firstUrl f.input_image).getD "")
          ((firstUrl f.input_video).getD "")),
        Event.update (persistUpdate env d.id) true]
        ++ (pollLoop env d.id 2 0 120).1,
       (pollLoop env d.id 2 0 120).2.1, (pollLoop env d.id 2 0 120).2.2) := by
  simp [runBody, hrec, himg, hvid, h0, hok, hcode, hd, h1]

/-- A record with both inputs, prompt absent, seed 42. -/
def goodFields : Fields :=
  { input_image := some [{ url := some "http://x/i.png" }],
    input_video := some [{ url := some "http://x/v.mp4" }],
    prompt := none, mode := none, resolution := none, seed := some 42 }

/-- A record whose image attachment field is absent. -/
def noImageFields : Fields :=
  { input_image := none,
    input_video := some [{ url := some "http://x/v.mp4" }],
    prompt := none, mode := none, resolution := none, seed := some 42 }

/-- A record with a non-empty prompt. -/
def promptFields : Fields :=
  { input_image := some [{ url := some "http://x/i.png" }],
    input_video := some [{ url := some "http://x/v.mp4" }],
    prompt := some "dance", mode := none, resolution := none, seed := some 42 }

/-- A record whose seed is the literal 0. -/
def seedZeroFields : Fields :=
  { input_image := some [{ url := some "http://x/i.png" }],
    input_video := some [{ url := some "http://x/v.mp4" }],
    prompt := none, mode := none, resolution := none, seed := some 0 }

/-- A successful submission response carrying job id "job1". -/
def okSubmit : SubmitResp :=
  { ok := true, code := some 200, message := none,
    data := some { id := some "job1" } }

/-- A poll response: completed with one output url. -/
def completedResp (u : String) : PollResp :=
  { data := some { status := some "completed", outputs := some [u], error := none } }

/-- A poll response: still in progress. -/
def processingResp : PollResp :=
  { data := some { status := some "created", outputs := none, error := none } }

/-- The happy-path environment: valid record, all updates succeed, the
job completes on the first poll. -/
def baseEnv : Env :=
  { record := some goodFields, findErr := "Record not found",
    updateOk := fun _ => true, updateErr := fun _ => "Airtable update failed",
    submitResp := okSubmit,
    pollResp := fun _ => completedResp "http://out/video.mp4",
    elapsedAt := fun n => 5 * n, isoStart := "t0", isoSubmitted := "t1",
    isoCompleted := "t2", isoFailed := "t3" }

/-- Like `baseEnv` but the job never reaches a terminal status. -/
def timeoutEnv : Env :=
  { baseEnv with pollResp := fun _ => processingResp }

/-- Like `baseEnv` but the completed response's outputs list is the
non-empty list containing only the empty string. -/
def emptyOutputsEnv : Env :=
  { baseEnv with pollResp := fun _ =>
      { data := some { status := some "completed", outputs := some [""], error := none } } }

/-- Like `baseEnv` but the submission response's data object carries no
id key. -/
def noIdEnv : Env :=
  { baseEnv with submitResp :=
      { ok := true, code := some 200, message := none,
        data := some { id := none } } }

/-- Like `baseEnv` but the submission response has no data object. -/
def noDataEnv : Env :=
  { baseEnv with submitResp :=
      { ok := true, code := some 200, message := none, data := none } }

/-- Like `baseEnv` but the submission response fails its check. -/
def submitFailEnv : Env :=
  { baseEnv with submitResp :=
      { ok := false, code := some 500, message := some "boom", data := none } }

/-- Like `baseEnv` but the record has no input image. -/
def noImageEnv : Env :=
  { baseEnv with record := some noImageFields }

/-- Like `baseEnv` but the record has a non-empty prompt. -/
def promptEnv : Env :=
  { baseEnv with record := some promptFields }

/-- Like `baseEnv` but the record's seed is the literal 0. -/
def seedZeroEnv : Env :=
  { baseEnv with record := some seedZeroFields }

/-- Like `baseEnv` but the first in-loop progress write (the run's
third update call) fails; everything else is unchanged. -/
def c6FailEnv : Env :=
  { baseEnv with updateOk := fun k => decide (k ≠ 2) }

/-- C4: if the first attachment URL of input_image or of input_video is
absent, the run sends no submission request, issues no polls, throws,
and (when the best-effort failure write succeeds) the record ends with
status "Failed". -/
theorem c4_missing_input_no_submit (env : Env) (f : Fields)
    (hrec : env.record = some f)
    (h : firstUrl f.input_image = none ∨ firstUrl f.input_video = none) :
    (∀ p, Event.submit p ∉ (run env).1) ∧
    countPolls (run env).1 = 0 ∧
    (∃ m, (run env).2 = some m) ∧
    (env.updateOk 0 = true → (finalState env).status = some "Failed") := by
  have hbody : ∃ m, runBody env = ([Event.find true], some m, 0) := by
    rcases h with h | h
    · exact ⟨"No input image found", by simp [runBody, hrec, h, truthy]⟩
    · by_cases h1 : truthy (firstUrl f.input_image) = false
      · exact ⟨"No input image found", by simp [runBody, hrec, h1]⟩
      · have h1t : truthy (firstUrl f.input_image) = true := by
          revert h1; cases truthy (firstUrl f.input_image) <;> simp
        have h2 : truthy (firstUrl f.input_video) = false := by
          rw [h]; rfl
        exact ⟨"No input video found", by simp [runBody, hrec, h1t, h2]⟩
  obtain ⟨m, hb⟩ := hbody
  have hrun : run env =
      ([Event.find true, Event.update (failedUpdate env m) (env.updateOk 0)],
        some m) := by
    simp [run, hb]
  refine ⟨?_, ?_, ⟨m, by rw [hrun]⟩, ?_⟩
  · intro p
    rw [hrun]
    simp
  · rw [hrun]
    simp [countPolls]
  · intro h0
    simp [finalState, hrun, h0, applyEvents, applyUpdate, failedUpdate]

/-- C4 witness: a concrete record with no input image ends Failed with
no submission. -/
theorem c4_witness :
    countPolls (run noImageEnv).1 = 0 ∧
    (finalState noImageEnv).status = some "Failed" :=
  ⟨(c4_missing_input_no_submit noImageEnv noImageFields rfl (Or.inl rfl)).2.1,
    (c4_missing_input_no_submit noImageEnv noImageFields rfl (Or.inl rfl)).2.2.2 rfl⟩

/-- C5: if the submission HTTP response is non-success or its body code
differs from 200, the run throws the API error (whose message is drawn
from the body's message field when that field is truthy), never writes
job_id in any update, issues no polls, and (when the failure write
succeeds) ends with status "Failed". -/
theorem c5_submit_error_no_job_id (env : Env) (f : Fields)
    (hrec : env.record = some f)
    (himg : truthy (firstUrl f.input_image) = true)
    (hvid : truthy (firstUrl f.input_video) = true)
    (h0 : env.updateOk 0 = true)
    (hfail : env.submitResp.ok = false ∨ env.submitResp.code ≠ some 200) :
    (run env).2 = some ("API error: " ++ jsOr env.submitResp.message "Unknown error") ∧
    (∀ u b, Event.update u b ∈ (run env).1 → u.job_id = none) ∧
    (finalState env).job_id = none ∧
    countPolls (run env).1 = 0 ∧
    (env.updateOk 1 = true → (finalState env).status = some "Failed" ∧
      (finalState env).error_log = some ("Error: " ++ ("API error: "
        ++ jsOr env.submitResp.message "Unknown error") ++ "\nTime: "
        ++ env.isoFailed)) ∧
    (∀ m2, env.submitResp.message = some m2 → m2 ≠ "" →
      (run env).2 = some ("API error: " ++ m2)) := by
  have hb : runBody env = ([Event.find true,
      Event.update (preSubmitUpdate env (jsOr f.mode "animate")
        (jsOr f.resolution "480p")) true,
      Event.submit (mkPayload f ((firstUrl f.input_image).getD "")
        ((firstUrl f.input_video).getD ""))],
      some ("API error: " ++ jsOr env.submitResp.message "Unknown error"), 1) := by
    rcases hfail with hf | hf
    · simp [runBody, hrec, himg, hvid, h0, hf]
    · simp [runBody, hrec, himg, hvid, h0, hf]
  have hrun : run env = ([Event.find true,
      Event.update (preSubmitUpdate env (jsOr f.mode "animate")
        (jsOr f.resolution "480p")) true,
      Event.submit (mkPayload f ((firstUrl f.input_image).getD "")
        ((firstUrl f.input_video).getD "")),
      Event.update (failedUpdate env ("API error: "
        ++ jsOr env.submitResp.message "Unknown error")) (env.updateOk 1)],
      some ("API error: " ++ jsOr env.submitResp.message "Unknown error")) := by
    simp [run, hb]
  refine ⟨by rw [hrun], ?_, ?_, ?_, ?_, ?_⟩
  · intro u b hm
    rw [hrun] at hm
    simp at hm
    rcases hm with ⟨hu, _⟩ | ⟨hu, _⟩
    · rw [hu]; rfl
    · rw [hu]; rfl
  · cases h1 : env.updateOk 1 with
    | true =>
      simp [finalState, hrun, h1, applyEvents, applyUpdate, failedUpdate,
        preSubmitUpdate]
    | false =>
      simp [finalState, hrun, h1, applyEvents, applyUpdate, failedUpdate,
        preSubmitUpdate]
  · rw [hrun]
    simp [countPolls]
  · intro h1
    constructor
    · simp [finalState, hrun, h1, applyEvents, applyUpdate, failedUpdate,
        preSubmitUpdate]
    · simp [finalState, hrun, h1, applyEvents, applyUpdate, failedUpdate,
        preSubmitUpdate]
  · intro m2 hm2 hne
    rw [hrun]
    simp [jsOr, hm2, hne]

/-- C5 witness: a concrete failing submission (ok=false, message "boom")
leaves job_id unwritten and the record Failed with the body's message. -/
theorem c5_witness :
    (run submitFailEnv).2 = some ("API error: " ++ "boom") ∧
    (finalState submitFailEnv).job_id = none ∧
    (finalState submitFailEnv).status = some "Failed" :=
  ⟨(c5_submit_error_no_job_id submitFailEnv goodFields rfl rfl rfl rfl
      (Or.inl rfl)).2.2.2.2.2 "boom" rfl (by decide),
    (c5_submit_error_no_job_id submitFailEnv goodFields rfl rfl rfl rfl
      (Or.inl rfl)).2.2.1,
    ((c5_submit_error_no_job_id submitFailEnv goodFields rfl rfl rfl rfl
      (Or.inl rfl)).2.2.2.2.1 rfl).1⟩

/-- C7 counterexample: with the success check passed but the body's
data object lacking an id key, the run does NOT fail: it enters the
poll loop and here even completes — contradicting the claim that it
ends Failed without entering the poll loop. -/
theorem c7_counterexample :
    noIdEnv.submitResp.ok = true ∧
    noIdEnv.submitResp.code = some 200 ∧
    noIdEnv.submitResp.data = some { id := none } ∧
    0 < countPolls (run noIdEnv).1 ∧
    (finalState noIdEnv).status = some "Completed" ∧
    (run noIdEnv).2 = none := by
  refine ⟨rfl, rfl, rfl, by decide, by decide, by decide⟩

/-- C7 (amended): only when the whole data object is absent from an
otherwise successful submission response does the run fail (with the
TypeError from reading data.id), ending Failed without writing job_id
and without entering the poll loop. -/
theorem c7_amended_missing_data (env : Env) (f : Fields)
    (hrec : env.record = some f)
    (himg : truthy (firstUrl f.input_image) = true)
    (hvid : truthy (firstUrl f.input_video) = true)
    (h0 : env.updateOk 0 = true)
    (hok : env.submitResp.ok = true)
    (hcode : env.submitResp.code = some 200)
    (hdata : env.submitResp.data = none) :
    (run env).2 = some dataUndefinedMsg ∧
    countPolls (run env).1 = 0 ∧
    (∀ u b, Event.update u b ∈ (run env).1 → u.job_id = none) ∧
    (finalState env).job_id = none ∧
    (env.updateOk 1 = true → (finalState env).status = some "Failed") := by
  have hb : runBody env = ([Event.find true,
      Event.update (preSubmitUpdate env (jsOr f.mode "animate")
        (jsOr f.resolution "480p")) true,
      Event.submit (mkPayload f ((firstUrl f.input_image).getD "")
        ((firstUrl f.input_video).getD ""))],
      some dataUndefinedMsg, 1) := by
    simp [runBody, hrec, himg, hvid, h0, hok, hcode, hdata]
  have hrun : run env = ([Event.find true,
      Event.update (preSubmitUpdate env (jsOr f.mode "animate")
        (jsOr f.resolution "480p")) true,
      Event.submit (mkPayload f ((firstUrl f.input_image).getD "")
        ((firstUrl f.input_video).getD "")),
      Event.update (failedUpdate env dataUndefinedMsg) (env.updateOk 1)],
      some dataUndefinedMsg) := by
    simp [run, hb]
  refine ⟨by rw [hrun], ?_, ?_, ?_, ?_⟩
  · rw [hrun]
    simp [countPolls]
  · intro u b hm
    rw [hrun] at hm
    simp at hm
    rcases hm with ⟨hu, _⟩ | ⟨hu, _⟩
    · rw [hu]; rfl
    · rw [hu]; rfl
  · cases h1 : env.updateOk 1 with
    | true =>
      simp [finalState, hrun, h1, applyEvents, applyUpdate, failedUpdate,
        preSubmitUpdate]
    | false =>
      simp [finalState, hrun, h1, applyEvents, applyUpdate, failedUpdate,
        preSubmitUpdate]
  · intro h1
    simp [finalState, hrun, h1, applyEvents, applyUpdate, failedUpdate,
      preSubmitUpdate]

/-- C7 witness: a concrete successful response with no data object
fails without polls, without job_id, ending Failed. -/
theorem c7_witness :
    (run noDataEnv).2 = some dataUndefinedMsg ∧
    countPolls (run noDataEnv).1 = 0 ∧
    (finalState noDataEnv).status = some "Failed" :=
  ⟨(c7_amended_missing_data noDataEnv goodFields rfl rfl rfl rfl rfl rfl rfl).1,
    (c7_amended_missing_data noDataEnv goodFields rfl rfl rfl rfl rfl rfl rfl).2.1,
    (c7_amended_missing_data noDataEnv goodFields rfl rfl rfl rfl rfl rfl rfl).2.2.2.2 rfl⟩

/-- C6 counterexample: two environments identical except that in one
the first in-loop progress write fails; the claim says the outcome is
unchanged, but the failing-write run ends Failed with zero polls while
the other completes after one poll. -/
theorem c6_counterexample :
    c6FailEnv.record = baseEnv.record ∧
    c6FailEnv.submitResp = baseEnv.submitResp ∧
    c6FailEnv.pollResp = baseEnv.pollResp ∧
    baseEnv.updateOk 2 = true ∧
    c6FailEnv.updateOk 2 = false ∧
    (finalState baseEnv).status = some "Completed" ∧
    countPolls (run baseEnv).1 = 1 ∧
    (finalState c6FailEnv).status = some "Failed" ∧
    countPolls (run c6FailEnv).1 = 0 ∧
    (finalState c6FailEnv).output_video = none :=
  ⟨rfl, rfl, rfl, rfl, by decide, by decide, by decide, by decide, by decide,
    by decide⟩

/-- C6 (amended): a failure of the per-attempt progress write inside
the poll loop aborts the run: that iteration issues no poll request,
the error propagates to the top-level catch, and (when the best-effort
failure write succeeds) the run ends with status "Failed". -/
theorem c6_amended_inloop_write_aborts (env : Env) (f : Fields) (d : SubmitData)
    (hrec : env.record = some f)
    (himg : truthy (firstUrl f.input_image) = true)
    (hvid : truthy (firstUrl f.input_video) = true)
    (h0 : env.updateOk 0 = true)
    (hok : env.submitResp.ok = true)
    (hcode : env.submitResp.code = some 200)
    (hd : env.submitResp.data = some d)
    (h1 : env.updateOk 1 = true)
    (h2 : env.updateOk 2 = false) :
    countPolls (run env).1 = 0 ∧
    (run env).2 = some (env.updateErr 2) ∧
    (env.updateOk 3 = true → (finalState env).status = some "Failed") := by
  have hreach := runBody_reach env f d hrec himg hvid h0 hok hcode hd h1
  have hloop : pollLoop env d.id 2 0 120 =
      ([Event.sleep 5000, Event.update (progressUpdate env d.id 1) false],
        some (env.updateErr 2), 3) :=
    pollLoop_updfail env d.id 2 0 119 h2
  have hrun : run env = ([Event.find true,
      Event.update (preSubmitUpdate env (jsOr f.mode "animate")
        (jsOr f.resolution "480p")) true,
      Event.submit (mkPayload f ((firstUrl f.input_image).getD "")
        ((firstUrl f.input_video).getD "")),
      Event.update (persistUpdate env d.id) true,
      Event.sleep 5000, Event.update (progressUpdate env d.id 1) false,
      Event.update (failedUpdate env (env.updateErr 2)) (env.updateOk 3)],
      some (env.updateErr 2)) := by
    simp [run, hreach, hloop]
  refine ⟨?_, by rw [hrun], ?_⟩
  · rw [hrun]
    simp [countPolls]
  · intro h3
    simp [finalState, hrun, h3, applyEvents, applyUpdate, failedUpdate,
      preSubmitUpdate, persistUpdate, progressUpdate]

/-- C6 witness: in the concrete failing-write environment the run
aborts with zero polls and ends Failed. -/
theorem c6_witness :
    countPolls (run c6FailEnv).1 = 0 ∧
    (run c6FailEnv).2 = some (c6FailEnv.updateErr 2) ∧
    (finalState c6FailEnv).status = some "Failed" := by
  have h := c6_amended_inloop_write_aborts c6FailEnv goodFields
    { id := some "job1" } rfl rfl rfl (by decide) rfl rfl rfl (by decide)
    (by decide)
  exact ⟨h.1, h.2.1, h.2.2 (by decide)⟩

/-- C2: every run issues at most 120 status checks, each preceded by a
5000 ms sleep (strictly more sleeps than polls before every check, so
none happens immediately); and a run that reaches the loop with every
response non-terminal performs exactly 120 checks, throws the timeout
error, and ends with status "Failed". -/
theorem c2_poll_budget_timeout (env : Env) (f : Fields) (d : SubmitData)
    (hrec : env.record = some f)
    (himg : truthy (firstUrl f.input_image) = true)
    (hvid : truthy (firstUrl f.input_video) = true)
    (hok : env.submitResp.ok = true)
    (hcode : env.submitResp.code = some 200)
    (hd : env.submitResp.data = some d)
    (hupd : ∀ k, env.updateOk k = true)
    (hnt : ∀ m, statusOf (env.pollResp m) ≠ some "completed" ∧
      statusOf (env.pollResp m) ≠ some "failed") :
    countPolls (run env).1 = 120 ∧
    (run env).2 = some timeoutMsg ∧
    (finalState env).status = some "Failed" ∧
    (∀ env2 : Env, countPolls (run env2).1 ≤ 120) ∧
    (∀ env2 : Env, sleepBefore (run env2).1) ∧
    (∀ env2 : Env, ∀ ms, Event.sleep ms ∈ (run env2).1 → ms = 5000) := by
  have hreach := runBody_reach env f d hrec himg hvid (hupd 0) hok hcode hd
    (hupd 1)
  have hloop := pollLoop_timeout env d.id hupd hnt 120 2 0
  have hrun : run env = (([Event.find true,
      Event.update (preSubmitUpdate env (jsOr f.mode "animate")
        (jsOr f.resolution "480p")) true,
      Event.submit (mkPayload f ((firstUrl f.input_image).getD "")
        ((firstUrl f.input_video).getD "")),
      Event.update (persistUpdate env d.id) true]
      ++ (pollLoop env d.id 2 0 120).1)
      ++ [Event.update (failedUpdate env timeoutMsg)
        (env.updateOk (pollLoop env d.id 2 0 120).2.2)],
      some timeoutMsg) := by
    simp [run, hreach, hloop.2]
  refine ⟨?_, by rw [hrun], ?_, run_countPolls_le, run_sleepBefore,
    run_sleep_mem⟩
  · rw [hrun, countPolls_append, countPolls_append, hloop.1]
    simp [countPolls]
  · have hfs : finalState env = applyUpdate
        (applyEvents {} ([Event.find true,
          Event.update (preSubmitUpdate env (jsOr f.mode "animate")
            (jsOr f.resolution "480p")) true,
          Event.submit (mkPayload f ((firstUrl f.input_image).getD "")
            ((firstUrl f.input_video).getD "")),
          Event.update (persistUpdate env d.id) true]
          ++ (pollLoop env d.id 2 0 120).1))
        (failedUpdate env timeoutMsg) := by
      rw [finalState, hrun, applyEvents_append, hupd]
      simp [applyEvents]
    rw [hfs]
    simp [applyUpdate, failedUpdate]

/-- C2 witness: a concrete run whose poll responses are always
in-progress performs exactly 120 checks and ends Failed by timeout. -/
theorem c2_witness :
    countPolls (run timeoutEnv).1 = 120 ∧
    (run timeoutEnv).2 = some timeoutMsg ∧
    (finalState timeoutEnv).status = some "Failed" := by
  have h := c2_poll_budget_timeout timeoutEnv goodFields { id := some "job1" }
    rfl rfl rfl rfl rfl rfl (fun _ => rfl)
    (by intro m; simp [timeoutEnv, processingResp, statusOf])
  exact ⟨h.1, h.2.1, h.2.2.1⟩

/-- C1 counterexample: a completed poll response with the non-empty
outputs list [""] does not lead to an output_video write; the run
throws "No video URL in completed response" and ends Failed. -/
theorem c1_counterexample :
    statusOf (emptyOutputsEnv.pollResp 1) = some "completed" ∧
    (emptyOutputsEnv.pollResp 1).data =
      some { status := some "completed", outputs := some [""], error := none } ∧
    Event.poll 1 (some "job1") ∈ (run emptyOutputsEnv).1 ∧
    countOutputWrites (run emptyOutputsEnv).1 = 0 ∧
    (finalState emptyOutputsEnv).output_video = none ∧
    (finalState emptyOutputsEnv).status = some "Failed" ∧
    (run emptyOutputsEnv).2 = some noVideoMsg :=
  ⟨rfl, rfl, by decide, by decide, by decide, by decide, by decide⟩

/-- C1 (amended): when a poll the run actually issues gets a completed
response whose first output is a non-empty string, the run issues the
success update writing output_video to that first output and status
"Completed", and no poll request after that attempt occurs. -/
theorem c1_amended_completed_writes_output (env : Env) (n : Nat)
    (j : Option String) (u : String)
    (hp : Event.poll n j ∈ (run env).1)
    (hc : statusOf (env.pollResp n) = some "completed")
    (ho : firstOutput (env.pollResp n) = some u)
    (hu : u ≠ "") :
    (∃ b, Event.update (successUpdate env n u) b ∈ (run env).1) ∧
    (successUpdate env n u).output_video = some u ∧
    (successUpdate env n u).status = some "Completed" ∧
    (∀ m j2, Event.poll m j2 ∈ (run env).1 → m ≤ n) := by
  obtain ⟨d, pre, post, hd, heq, hpre0, hpost0, hpersist, hin, hj⟩ :=
    run_poll_decomp env n j hp
  obtain ⟨⟨b, hb⟩, hle⟩ :=
    pollLoop_completed env d.id 120 2 0 n j u hin hc ho hu
  refine ⟨⟨b, ?_⟩, rfl, rfl, ?_⟩
  · rw [heq]
    exact List.mem_append.mpr (Or.inl (List.mem_append.mpr (Or.inr hb)))
  · intro m j2 hm
    rw [heq] at hm
    rcases List.mem_append.mp hm with h12 | h1
    · rcases List.mem_append.mp h12 with h1 | h1
      · exact absurd h1 (poll_not_mem_of_countPolls_zero hpre0 m j2)
      · exact hle m j2 h1
    · exact absurd h1 (poll_not_mem_of_countPolls_zero hpost0 m j2)

/-- C1 witness: in the happy-path environment the first poll completes
with a non-empty url, the success update is issued, and no poll after
attempt 1 occurs. -/
theorem c1_witness :
    (∃ b, Event.update (successUpdate baseEnv 1 "http://out/video.mp4") b ∈
      (run baseEnv).1) ∧
    (∀ m j2, Event.poll m j2 ∈ (run baseEnv).1 → m ≤ 1) := by
  have h := c1_amended_completed_writes_output baseEnv 1 (some "job1")
    "http://out/video.mp4" (by decide) rfl rfl (by decide)
  exact ⟨h.1, h.2.2.2⟩

/-- C3: if the run issues a poll request carrying job id j, then the
successful record update whose field map writes job_id = j and status
"Processing..." occurs in the trace strictly before every poll
request. -/
theorem c3_persist_before_poll (env : Env) (n : Nat) (j : String)
    (h : Event.poll n (some j) ∈ (run env).1) :
    ∃ p q, (run env).1 = p ++ q ∧ countPolls p = 0 ∧
      Event.update (persistUpdate env (some j)) true ∈ p ∧
      Event.poll n (some j) ∈ q ∧
      (persistUpdate env (some j)).job_id = some j ∧
      (persistUpdate env (some j)).status = some "Processing..." := by
  obtain ⟨d, pre, post, hd, heq, hpre0, hpost0, hpersist, hin, hj⟩ :=
    run_poll_decomp env n (some j) h
  refine ⟨pre, (pollLoop env d.id 2 0 120).1 ++ post, ?_, hpre0, ?_, ?_, rfl, rfl⟩
  · rw [heq, List.append_assoc]
  · rw [← hj] at hpersist
    exact hpersist
  · exact List.mem_append.mpr (Or.inl hin)

/-- C3 witness: in the happy-path environment the persist write of
job_id "job1" precedes the single poll. -/
theorem c3_witness :
    ∃ p q, (run baseEnv).1 = p ++ q ∧ countPolls p = 0 ∧
      Event.update (persistUpdate baseEnv (some "job1")) true ∈ p ∧
      Event.poll 1 (some "job1") ∈ q ∧
      (persistUpdate baseEnv (some "job1")).job_id = some "job1" ∧
      (persistUpdate baseEnv (some "job1")).status = some "Processing..." :=
  c3_persist_before_poll baseEnv 1 "job1" (by decide)

/-- C8: every run writes output_video at most once, and any update that
writes it is the success update: it also writes status "Completed" and
does not touch job_id; every other update leaves output_video alone by
construction of its field map. -/
theorem c8_output_video_once (env : Env) :
    countOutputWrites (run env).1 ≤ 1 ∧
    ∀ u b, Event.update u b ∈ (run env).1 → u.output_video ≠ none →
      ∃ n v, u = successUpdate env n v ∧ u.output_video = some v ∧
        u.status = some "Completed" ∧ u.job_id = none := by
  refine ⟨run_countOutput_le env, ?_⟩
  intro u b hm h
  obtain ⟨n, v, hn⟩ := run_output_update env u b hm h
  exact ⟨n, v, hn, by rw [hn]; rfl, by rw [hn]; rfl, by rw [hn]; rfl⟩

/-- C8 witness: the happy-path run writes output_video at most once. -/
theorem c8_witness : countOutputWrites (run baseEnv).1 ≤ 1 :=
  (c8_output_video_once baseEnv).1

/-- C9: the submission payload carries a prompt key iff the record's
prompt field is a non-empty string, and then it carries exactly that
string. -/
theorem c9_prompt_iff_nonempty (env : Env) (f : Fields) (p : Payload)
    (hrec : env.record = some f)
    (h : Event.submit p ∈ (run env).1) :
    (p.prompt = none ↔ f.prompt = none ∨ f.prompt = some "") ∧
    (∀ s, f.prompt = some s → s ≠ "" → p.prompt = some s) := by
  obtain ⟨f2, hf2, hp⟩ := submit_mem_run env p h
  rw [hrec, Option.some.injEq] at hf2
  subst hf2
  constructor
  · rw [hp]
    cases hf : f.prompt with
    | none => simp [mkPayload, jsOr, hf]
    | some s =>
      by_cases hs : s = "" <;> simp [mkPayload, jsOr, hf, hs]
  · intro s hfs hs
    rw [hp]
    simp [mkPayload, jsOr, hfs, hs]

/-- C9 witness: the record with prompt "dance" submits a payload whose
prompt key is "dance". -/
theorem c9_witness :
    (mkPayload promptFields ((firstUrl promptFields.input_image).getD "")
      ((firstUrl promptFields.input_video).getD "")).prompt = some "dance" := by
  have h := c9_prompt_iff_nonempty promptEnv promptFields
    (mkPayload promptFields ((firstUrl promptFields.input_image).getD "")
      ((firstUrl promptFields.input_video).getD "")) rfl (by decide)
  exact h.2 "dance" rfl (by decide)

/-- C10: a record seed of 0 (or an absent seed) is submitted as the
sentinel -1; a non-zero seed is forwarded unchanged; no payload ever
carries seed 0. -/
theorem c10_seed_zero_sentinel (env : Env) (f : Fields) (p : Payload)
    (hrec : env.record = some f)
    (h : Event.submit p ∈ (run env).1) :
    ((f.seed = none ∨ f.seed = some 0) → p.seed = -1) ∧
    (∀ s, f.seed = some s → s ≠ 0 → p.seed = s) ∧
    p.seed ≠ 0 := by
  obtain ⟨f2, hf2, hp⟩ := submit_mem_run env p h
  rw [hrec, Option.some.injEq] at hf2
  subst hf2
  refine ⟨?_, ?_, ?_⟩
  · intro hs
    rcases hs with hs | hs <;> rw [hp] <;> simp [mkPayload, jsOrInt, hs]
  · intro s hs hns
    rw [hp]
    simp [mkPayload, jsOrInt, hs, hns]
  · rw [hp]
    cases hs : f.seed with
    | none => simp [mkPayload, jsOrInt, hs]
    | some s =>
      by_cases h0 : s = 0 <;> simp [mkPayload, jsOrInt, hs, h0]

/-- C10 witness: the record with seed 0 submits seed -1. -/
theorem c10_witness :
    (mkPayload seedZeroFields ((firstUrl seedZeroFields.input_image).getD "")
      ((firstUrl seedZeroFields.input_video).getD "")).seed = -1 := by
  have h := c10_seed_zero_sentinel seedZeroEnv seedZeroFields
    (mkPayload seedZeroFields ((firstUrl seedZeroFields.input_image).getD "")
      ((firstUrl seedZeroFields.input_video).getD "")) rfl (by decide)
  exact h.1 (Or.inr rfl)

end WanAnimate
